import Mathlib

/-!
Verification development for the wowmysql-go client SDK.

The Go sources under `wowmysql/` are embedded shallowly:

* JSON documents are modelled by the inductive `JsonValue`; a Go
  `map[string]interface{}` request body is modelled as an association list
  `List (String × JsonValue)` (Go maps have unique keys; the claims below
  only inspect key membership and field values, never textual key order).
* Go `float64` quantities are modelled as exact rationals (`Rat`).  The only
  float arithmetic the sources perform on them is multiplication by the
  power of two `1024*1024*1024` followed by an `int64` conversion, which is
  exact respectively truncating-toward-zero in binary floating point
  wherever it does not overflow, so the rational model agrees with Go.
* Go `int`/`int64` are modelled as `Int`, HTTP status codes as `Nat`.
* The HTTP transport is a boundary: functions that perform a round trip are
  parameterised by the response (status code and decoded JSON body) or by
  the outcome of the inner call they delegate to.
-/

/-- A JSON value (Go `interface{}` after `encoding/json` decoding). -/
inductive JsonValue where
  | null
  | bool (b : Bool)
  | num (q : Rat)
  | str (s : String)
  | arr (elems : List JsonValue)
  | obj (fields : List (String × JsonValue))

/-- Go `FilterOperator` is a string type; the constants below are the ones
declared in `query_builder.go` lines 11-20. -/
abbrev FilterOperator := String

def OpEq : FilterOperator := "eq"

def OpNeq : FilterOperator := "neq"

def OpGt : FilterOperator := "gt"

def OpGte : FilterOperator := "gte"

def OpLt : FilterOperator := "lt"

def OpLte : FilterOperator := "lte"

def OpLike : FilterOperator := "like"

/-- In the source this constant is the two-letter string `"is"`
(`query_builder.go` line 19), not `"is-null"`. -/
def OpIsNull : FilterOperator := "is"

/-- Go `SortDirection` string type (`query_builder.go` lines 22-28). -/
abbrev SortDirection := String

def SortAsc : SortDirection := "asc"

def SortDesc : SortDirection := "desc"

/-- `FilterExpression` (`query_builder.go` lines 30-35).  `Value` is a Go
`interface{}` carrying the json tag `value,omitempty`: a `nil` interface
(modelled `none`) makes `encoding/json` omit the key entirely. -/
structure FilterExpression where
  Column : String
  Operator : FilterOperator
  Value : Option JsonValue

/-- JSON object produced by marshalling one `FilterExpression`: the struct
fields in declaration order, with `value` omitted exactly when the Go
interface is nil (`omitempty` on an interface checks only for nil). -/
def FilterExpression.toJson (f : FilterExpression) : JsonValue :=
  JsonValue.obj
    ([("column", JsonValue.str f.Column), ("operator", JsonValue.str f.Operator)]
      ++ (match f.Value with
          | some v => [("value", v)]
          | none => []))

/-- `QueryBuilder` state (`query_builder.go` lines 37-47) without the
transport handle.  Field defaults are the Go zero values. -/
structure QueryBuilder where
  tableName : String := ""
  columns : List String := []
  filters : List FilterExpression := []
  orderColumn : String := ""
  orderDirection : SortDirection := ""
  limitValue : Option Int := none
  offsetValue : Option Int := none

/-- `Select` replaces the column list (`query_builder.go` lines 49-53). -/
def QueryBuilder.Select (qb : QueryBuilder) (columns : List String) : QueryBuilder :=
  { qb with columns := columns }

/-- `Eq` appends an equality filter (`query_builder.go` lines 55-63). -/
def QueryBuilder.Eq (qb : QueryBuilder) (column : String) (value : Option JsonValue) :
    QueryBuilder :=
  { qb with filters := qb.filters ++ [{ Column := column, Operator := OpEq, Value := value }] }

/-- `Neq` (`query_builder.go` lines 65-73). -/
def QueryBuilder.Neq (qb : QueryBuilder) (column : String) (value : Option JsonValue) :
    QueryBuilder :=
  { qb with filters := qb.filters ++ [{ Column := column, Operator := OpNeq, Value := value }] }

/-- `Gt` (`query_builder.go` lines 75-83). -/
def QueryBuilder.Gt (qb : QueryBuilder) (column : String) (value : Option JsonValue) :
    QueryBuilder :=
  { qb with filters := qb.filters ++ [{ Column := column, Operator := OpGt, Value := value }] }

/-- `Gte` (`query_builder.go` lines 85-93). -/
def QueryBuilder.Gte (qb : QueryBuilder) (column : String) (value : Option JsonValue) :
    QueryBuilder :=
  { qb with filters := qb.filters ++ [{ Column := column, Operator := OpGte, Value := value }] }

/-- `Lt` (`query_builder.go` lines 95-103). -/
def QueryBuilder.Lt (qb : QueryBuilder) (column : String) (value : Option JsonValue) :
    QueryBuilder :=
  { qb with filters := qb.filters ++ [{ Column := column, Operator := OpLt, Value := value }] }

/-- `Lte` (`query_builder.go` lines 105-113). -/
def QueryBuilder.Lte (qb : QueryBuilder) (column : String) (value : Option JsonValue) :
    QueryBuilder :=
  { qb with filters := qb.filters ++ [{ Column := column, Operator := OpLte, Value := value }] }

/-- `Like` takes a `string` pattern (not an `interface{}`), so its value is
always a (possibly empty) string (`query_builder.go` lines 115-123). -/
def QueryBuilder.Like (qb : QueryBuilder) (column : String) (pattern : String) :
    QueryBuilder :=
  { qb with
    filters := qb.filters
      ++ [{ Column := column, Operator := OpLike, Value := some (JsonValue.str pattern) }] }

/-- `IsNull` appends a filter whose `Value` field is left at the zero value
(nil interface), operator `OpIsNull` (`query_builder.go` lines 125-132). -/
def QueryBuilder.IsNull (qb : QueryBuilder) (column : String) : QueryBuilder :=
  { qb with
    filters := qb.filters ++ [{ Column := column, Operator := OpIsNull, Value := none }] }

/-- `OrderBy` replaces the order column and direction
(`query_builder.go` lines 134-139). -/
def QueryBuilder.OrderBy (qb : QueryBuilder) (column : String) (direction : SortDirection) :
    QueryBuilder :=
  { qb with orderColumn := column, orderDirection := direction }

/-- `Limit` (`query_builder.go` lines 141-145). -/
def QueryBuilder.Limit (qb : QueryBuilder) (limit : Int) : QueryBuilder :=
  { qb with limitValue := some limit }

/-- `Offset` (`query_builder.go` lines 147-151). -/
def QueryBuilder.Offset (qb : QueryBuilder) (offset : Int) : QueryBuilder :=
  { qb with offsetValue := some offset }

/-- `buildQueryBody` (`query_builder.go` lines 234-260): each key is added to
the body map only under the guard the source checks.  The Go map is modelled
as an association list in insertion order; the claims below only inspect key
membership, on which map iteration order has no bearing. -/
def QueryBuilder.buildQueryBody (qb : QueryBuilder) : List (String × JsonValue) :=
  (if 0 < qb.columns.length then
    [("columns", JsonValue.arr (qb.columns.map JsonValue.str))]
  else [])
  ++ (if 0 < qb.filters.length then
    [("filters", JsonValue.arr (qb.filters.map FilterExpression.toJson))]
  else [])
  ++ (if qb.orderColumn ≠ "" then
    [("order_by", JsonValue.str qb.orderColumn),
     ("order_direction", JsonValue.str qb.orderDirection)]
  else [])
  ++ (match qb.limitValue with
      | some n => [("limit", JsonValue.num (n : Rat))]
      | none => [])
  ++ (match qb.offsetValue with
      | some n => [("offset", JsonValue.num (n : Rat))]
      | none => [])

/-- Key membership in a serialized JSON object body. -/
def hasKey (body : List (String × JsonValue)) (key : String) : Bool :=
  body.any fun kv => kv.1 == key

/-- `Table.Where` (`table.go` lines 64-71): a fresh builder with an empty
(non-nil, length zero) filter slice and all other fields at zero values. -/
def Table.Where (tableName : String) : QueryBuilder :=
  { tableName := tableName, filters := [] }

/-- One public filter-mutator invocation on a `QueryBuilder`.  The
constructors carry exactly the arguments the Go methods accept: the six
comparison mutators take an `interface{}` value (nil allowed, modelled
`Option JsonValue`), `Like` takes a non-nullable `string` pattern, and
`IsNull` takes only a column. -/
inductive FilterCall where
  | eqCall (column : String) (value : Option JsonValue)
  | neqCall (column : String) (value : Option JsonValue)
  | gtCall (column : String) (value : Option JsonValue)
  | gteCall (column : String) (value : Option JsonValue)
  | ltCall (column : String) (value : Option JsonValue)
  | lteCall (column : String) (value : Option JsonValue)
  | likeCall (column : String) (pattern : String)
  | isNullCall (column : String)

/-- Dispatch one call to the corresponding source mutator. -/
def applyFilterCall (qb : QueryBuilder) : FilterCall → QueryBuilder
  | .eqCall c v => qb.Eq c v
  | .neqCall c v => qb.Neq c v
  | .gtCall c v => qb.Gt c v
  | .gteCall c v => qb.Gte c v
  | .ltCall c v => qb.Lt c v
  | .lteCall c v => qb.Lte c v
  | .likeCall c p => qb.Like c p
  | .isNullCall c => qb.IsNull c

/-- Apply a chain of filter-mutator calls left to right. -/
def applyFilterCalls (qb : QueryBuilder) (calls : List FilterCall) : QueryBuilder :=
  calls.foldl applyFilterCall qb

/-- The single `FilterExpression` each mutator appends. -/
def filterOfCall : FilterCall → FilterExpression
  | .eqCall c v => { Column := c, Operator := OpEq, Value := v }
  | .neqCall c v => { Column := c, Operator := OpNeq, Value := v }
  | .gtCall c v => { Column := c, Operator := OpGt, Value := v }
  | .gteCall c v => { Column := c, Operator := OpGte, Value := v }
  | .ltCall c v => { Column := c, Operator := OpLt, Value := v }
  | .lteCall c v => { Column := c, Operator := OpLte, Value := v }
  | .likeCall c p => { Column := c, Operator := OpLike, Value := some (JsonValue.str p) }
  | .isNullCall c => { Column := c, Operator := OpIsNull, Value := none }

/-- The wire object the specification predicts for one mutator call: a JSON
object recording the call's column, the operator constant of the mutator
used, and the value passed (omitted when no value is carried). -/
def expectedFilterJson : FilterCall → JsonValue
  | .eqCall c v => JsonValue.obj
      ([("column", JsonValue.str c), ("operator", JsonValue.str OpEq)]
        ++ (match v with | some x => [("value", x)] | none => []))
  | .neqCall c v => JsonValue.obj
      ([("column", JsonValue.str c), ("operator", JsonValue.str OpNeq)]
        ++ (match v with | some x => [("value", x)] | none => []))
  | .gtCall c v => JsonValue.obj
      ([("column", JsonValue.str c), ("operator", JsonValue.str OpGt)]
        ++ (match v with | some x => [("value", x)] | none => []))
  | .gteCall c v => JsonValue.obj
      ([("column", JsonValue.str c), ("operator", JsonValue.str OpGte)]
        ++ (match v with | some x => [("value", x)] | none => []))
  | .ltCall c v => JsonValue.obj
      ([("column", JsonValue.str c), ("operator", JsonValue.str OpLt)]
        ++ (match v with | some x => [("value", x)] | none => []))
  | .lteCall c v => JsonValue.obj
      ([("column", JsonValue.str c), ("operator", JsonValue.str OpLte)]
        ++ (match v with | some x => [("value", x)] | none => []))
  | .likeCall c p => JsonValue.obj
      [("column", JsonValue.str c), ("operator", JsonValue.str OpLike),
       ("value", JsonValue.str p)]
  | .isNullCall c => JsonValue.obj
      [("column", JsonValue.str c), ("operator", JsonValue.str OpIsNull)]

/-- Key membership inside a serialized JSON object value. -/
def objHasKey : JsonValue → String → Bool
  | JsonValue.obj fields, key => hasKey fields key
  | _, _ => false

/-- Key list of a serialized JSON object value. -/
def objKeys : JsonValue → List String
  | JsonValue.obj fields => fields.map Prod.fst
  | _ => []

/-- The operator set exactly as the specification states it, with an
`is-null` member. -/
def specClaimedOperators : List String :=
  ["eq", "neq", "gt", "gte", "lt", "lte", "like", "is-null"]

/-- The operator constants actually declared in `query_builder.go`. -/
def sourceOperators : List FilterOperator :=
  [OpEq, OpNeq, OpGt, OpGte, OpLt, OpLte, OpLike, OpIsNull]

/-- `QueryResponse` (`models.go` lines 5-11); rows are decoded JSON objects. -/
structure QueryResponse where
  Data : List (List (String × JsonValue)) := []
  Count : Int := 0
  Total : Option Int := none
  Error : Option String := none

/-- `First` (`query_builder.go` lines 175-188): sets limit 1 on the builder,
runs `Execute` (modelled by the `exec` oracle standing for the HTTP round
trip plus response decoding), propagates its error, and maps an empty result
set to the Go `(nil, nil)` no-rows signal, modelled `Except.ok none`. -/
def QueryBuilder.First {ε : Type} (exec : QueryBuilder → Except ε QueryResponse)
    (qb : QueryBuilder) : Except ε (Option (List (String × JsonValue))) :=
  match exec (qb.Limit 1) with
  | Except.error e => Except.error e
  | Except.ok result =>
    match result.Data with
    | [] => Except.ok none
    | d :: _ => Except.ok (some d)

/-- Go `errorResponse[key].(string)`: a field read that succeeds only when
the key is present and holds a string. -/
def lookupString (resp : List (String × JsonValue)) (key : String) : Option String :=
  match resp.lookup key with
  | some (JsonValue.str s) => some s
  | _ => none

/-- The message-selection code shared verbatim by `parseError`
(`table.go` lines 168-179) and `parseStorageError` (`table.go` lines
220-231): try the `error`, `message`, `detail` string fields in order,
starting from the sentinel `"Request failed"`, and replace the result by the
synthesized message whenever it still equals the sentinel. -/
def extractMessage (statusCode : Nat) (errorResponse : List (String × JsonValue)) : String :=
  let message :=
    match lookupString errorResponse "error" with
    | some m => m
    | none =>
      match lookupString errorResponse "message" with
      | some m => m
      | none =>
        match lookupString errorResponse "detail" with
        | some m => m
        | none => "Request failed"
  if message = "Request failed" then
    "Request failed with status " ++ toString statusCode
  else message

/-- The four typed data-API errors `parseError` can build
(`table.go` lines 80-107 and 181-212), each carrying message, status code
and decoded response body. -/
inductive DataError where
  | authenticationError (Message : String) (StatusCode : Nat)
      (Response : List (String × JsonValue))
  | notFoundError (Message : String) (StatusCode : Nat)
      (Response : List (String × JsonValue))
  | rateLimitError (Message : String) (StatusCode : Nat)
      (Response : List (String × JsonValue))
  | wowMySQLError (Message : String) (StatusCode : Nat)
      (Response : List (String × JsonValue))

def DataError.message : DataError → String
  | .authenticationError m _ _ => m
  | .notFoundError m _ _ => m
  | .rateLimitError m _ _ => m
  | .wowMySQLError m _ _ => m

def DataError.status : DataError → Nat
  | .authenticationError _ s _ => s
  | .notFoundError _ s _ => s
  | .rateLimitError _ s _ => s
  | .wowMySQLError _ s _ => s

def DataError.response : DataError → List (String × JsonValue)
  | .authenticationError _ _ r => r
  | .notFoundError _ _ r => r
  | .rateLimitError _ _ r => r
  | .wowMySQLError _ _ r => r

def DataError.isAuthentication : DataError → Bool
  | .authenticationError _ _ _ => true
  | _ => false

def DataError.isNotFound : DataError → Bool
  | .notFoundError _ _ _ => true
  | _ => false

def DataError.isRateLimit : DataError → Bool
  | .rateLimitError _ _ _ => true
  | _ => false

def DataError.isGeneric : DataError → Bool
  | .wowMySQLError _ _ _ => true
  | _ => false

/-- `parseError` (`table.go` lines 163-213): extract the message, then
classify by the status-code switch. -/
def parseError (statusCode : Nat) (errorResponse : List (String × JsonValue)) : DataError :=
  let message := extractMessage statusCode errorResponse
  if statusCode = 401 ∨ statusCode = 403 then
    DataError.authenticationError message statusCode errorResponse
  else if statusCode = 404 then
    DataError.notFoundError message statusCode errorResponse
  else if statusCode = 429 then
    DataError.rateLimitError message statusCode errorResponse
  else
    DataError.wowMySQLError message statusCode errorResponse

/-- The message-selection rule exactly as the claim states it: the `error`
field, else `message`, else `detail`, and the synthesized message only when
none of them is present. -/
def specMessageRule (statusCode : Nat) (resp : List (String × JsonValue)) : String :=
  match lookupString resp "error" with
  | some m => m
  | none =>
    match lookupString resp "message" with
    | some m => m
    | none =>
      match lookupString resp "detail" with
      | some m => m
      | none => "Request failed with status " ++ toString statusCode

/-- Truncation toward zero: the Go `int64(x)` conversion of a float64,
modelled on exact rationals. -/
def ratTrunc (q : Rat) : Int := Int.tdiv q.num (q.den : Int)

/-- `StorageQuota` (`models.go` lines 48-61): GB fields from the wire,
byte fields excluded from JSON (`json:"-"`) and filled in by
`UnmarshalJSON`. -/
structure StorageQuota where
  StorageQuotaGB : Rat := 0
  StorageUsedGB : Rat := 0
  StorageExpansionGB : Rat := 0
  StorageAvailableGB : Rat := 0
  UsagePercentage : Rat := 0
  CanExpandStorage : Bool := false
  IsEnterprise : Bool := false
  PlanName : String := ""
  StorageQuotaBytes : Int := 0
  StorageUsedBytes : Int := 0
  StorageAvailableBytes : Int := 0

/-- The wire fields `StorageQuota.UnmarshalJSON` decodes; absent JSON fields
leave the Go zero values, hence the defaults. -/
structure StorageQuotaWire where
  storage_quota_gb : Rat := 0
  storage_used_gb : Rat := 0
  storage_expansion_gb : Rat := 0
  storage_available_gb : Rat := 0
  usage_percentage : Rat := 0
  can_expand_storage : Bool := false
  is_enterprise : Bool := false
  plan_name : String := ""

/-- `StorageQuota.UnmarshalJSON` (`models.go` lines 63-81): decode the wire
fields, then compute the three byte fields once, at construction, as
GB × 1024 × 1024 × 1024 truncated to int64. -/
def StorageQuota.unmarshal (w : StorageQuotaWire) : StorageQuota :=
  { StorageQuotaGB := w.storage_quota_gb
    StorageUsedGB := w.storage_used_gb
    StorageExpansionGB := w.storage_expansion_gb
    StorageAvailableGB := w.storage_available_gb
    UsagePercentage := w.usage_percentage
    CanExpandStorage := w.can_expand_storage
    IsEnterprise := w.is_enterprise
    PlanName := w.plan_name
    StorageQuotaBytes := ratTrunc (w.storage_quota_gb * (1024 * 1024 * 1024))
    StorageUsedBytes := ratTrunc (w.storage_used_gb * (1024 * 1024 * 1024))
    StorageAvailableBytes := ratTrunc (w.storage_available_gb * (1024 * 1024 * 1024)) }

/-- The wire record of the claim's example: quota 10 GB, used 2.5 GB and the
matching available 7.5 GB. -/
def exampleQuotaWire : StorageQuotaWire :=
  { storage_quota_gb := 10, storage_used_gb := 2.5, storage_available_gb := 7.5 }

/-- The exponent the `formatBytes` loop computes: the number of iterations
of `for n := bytes / 1024; n >= 1024; n /= 1024`. -/
def fbExp (n : Nat) : Nat :=
  if h : n < 1024 then 0
  else fbExp (n / 1024) + 1
decreasing_by
  exact Nat.div_lt_self (by omega) (by omega)

/-- Round half to even (banker's rounding), the IEEE-754 default used when
Go's `%.2f` renders the quotient. -/
def roundHalfEven (q : Rat) : Int :=
  let f := Int.fdiv q.num (q.den : Int)
  let r2 := 2 * (q.num - f * (q.den : Int))
  if r2 < (q.den : Int) then f
  else if (q.den : Int) < r2 then f + 1
  else if f % 2 = 0 then f else f + 1

/-- Render a non-negative rational with two decimal places (`%.2f`). -/
def format2f (q : Rat) : String :=
  let n100 := roundHalfEven (q * 100)
  let whole := Int.fdiv n100 100
  let frac := (n100 - whole * 100).toNat
  toString whole ++ "." ++ (if frac < 10 then "0" else "") ++ toString frac

/-- `formatBytes` (`storage.go` lines 282-294).  Quantities below 1024 are
rendered exactly as in Go (`"%d B"`); for larger quantities the float64
division and `%.2f` rendering are modelled by exact rational division with
half-even rounding. -/
def formatBytes (bytes : Int) : String :=
  if bytes < 1024 then toString bytes ++ " B"
  else
    let exp := fbExp (bytes.toNat / 1024)
    let div : Int := 1024 ^ (exp + 1)
    format2f ((bytes : Rat) / (div : Rat)) ++ " "
      ++ String.mk [['K', 'M', 'G', 'T', 'P', 'E'].getD exp 'E'] ++ "B"

/-- The message built by the fail-fast quota guard
(`storage.go` lines 75-79). -/
def storageLimitExceededMessage (required available : Int) : String :=
  "Storage limit exceeded. Need " ++ formatBytes required ++ ", but only "
    ++ formatBytes available ++ " available."

/-- The two typed storage-API errors (`table.go` lines 122-161).  The
`limitExceeded` constructor carries the `RequiredBytes` and `AvailableBytes`
int64 fields of `StorageLimitExceededError`. -/
inductive StorageFailure where
  | limitExceeded (Message : String) (RequiredBytes AvailableBytes : Int)
      (StatusCode : Nat) (Response : List (String × JsonValue))
  | storageError (Message : String) (StatusCode : Nat)
      (Response : List (String × JsonValue))

/-- `parseStorageError` (`table.go` lines 215-246): same message extraction
as `parseError`; status 413 builds a `StorageLimitExceededError` whose
struct literal sets only message, status and response — `RequiredBytes` and
`AvailableBytes` keep their int64 zero values; every other status builds
the generic `StorageError`. -/
def parseStorageError (statusCode : Nat) (errorResponse : List (String × JsonValue)) :
    StorageFailure :=
  let message := extractMessage statusCode errorResponse
  if statusCode = 413 then
    StorageFailure.limitExceeded message 0 0 statusCode errorResponse
  else
    StorageFailure.storageError message statusCode errorResponse

/-- `StorageClient` state (`storage.go` lines 13-19) without the transport
handle. -/
structure StorageClient where
  projectURL : String := ""
  apiKey : String := ""
  autoCheckQuota : Bool := true

/-- `NewStorageClient` (`storage.go` lines 21-31): quota checking defaults
to enabled. -/
def NewStorageClient (projectURL apiKey : String) : StorageClient :=
  { projectURL := projectURL, apiKey := apiKey, autoCheckQuota := true }

/-- The per-call override resolution at the top of `Upload`
(`storage.go` lines 62-65): start from the client-wide `autoCheckQuota`,
overridden by a non-nil `checkQuota` argument. -/
def shouldCheckQuota (s : StorageClient) (checkQuota : Option Bool) : Bool :=
  match checkQuota with
  | some b => b
  | none => s.autoCheckQuota

/-- What the quota guard decides before any multipart body is built:
either abort with a typed failure, or proceed to the transport upload
path. -/
inductive UploadGate where
  | abort (e : StorageFailure)
  | send

/-- The quota guard of `Upload` (`storage.go` lines 61-81): when checking is
enabled it first runs `GetQuota` (whose outcome is the `quotaOutcome`
parameter, a transport boundary), propagates its failure, and fails fast
with a `StorageLimitExceededError` carrying required = payload length and
available = fetched available bytes whenever the quota is insufficient.
Only a `send` result reaches the multipart/POST code below line 83. -/
def uploadQuotaGate (s : StorageClient) (checkQuota : Option Bool)
    (quotaOutcome : Except StorageFailure StorageQuota) (fileData : List Nat) :
    UploadGate :=
  if shouldCheckQuota s checkQuota then
    match quotaOutcome with
    | Except.error e => UploadGate.abort e
    | Except.ok quota =>
      if quota.StorageAvailableBytes < (fileData.length : Int) then
        UploadGate.abort (StorageFailure.limitExceeded
          (storageLimitExceededMessage (fileData.length : Int) quota.StorageAvailableBytes)
          (fileData.length : Int) quota.StorageAvailableBytes 0 [])
      else UploadGate.send
  else UploadGate.send

/-- `Upload` (`storage.go` lines 60-144): the quota guard, then the
multipart POST, whose response (status code and decoded JSON body) is the
transport-boundary parameter; non-2xx responses are classified by
`parseStorageError` exactly as on line 135, 2xx bodies are returned for
decoding.  `key` and `contentType` only feed the multipart form fields. -/
def StorageClient.Upload (s : StorageClient) (fileData : List Nat)
    (key contentType : String) (checkQuota : Option Bool)
    (quotaOutcome : Except StorageFailure StorageQuota)
    (response : Nat × List (String × JsonValue)) :
    Except StorageFailure (List (String × JsonValue)) :=
  match uploadQuotaGate s checkQuota quotaOutcome fileData with
  | UploadGate.abort e => Except.error e
  | UploadGate.send =>
    if response.1 < 200 ∨ 300 ≤ response.1 then
      Except.error (parseStorageError response.1 response.2)
    else Except.ok response.2

/-- The fetched quota of the C7 witness: 3 available bytes. -/
def witnessQuota : StorageQuota := { StorageAvailableBytes := 3 }

/-- Go `unicode.IsSpace` restricted to the Latin-1 range, the cut set of
`strings.TrimSpace`. -/
def isSpaceChar (c : Char) : Bool :=
  c == ' ' || c == '\t' || c == '\n' || (c == Char.ofNat 11) || (c == Char.ofNat 12)
    || c == '\r' || (c == Char.ofNat 0x85) || (c == Char.ofNat 0xA0)

/-- `strings.TrimSpace` on the character-list view. -/
def chTrimSpace (s : List Char) : List Char :=
  ((s.dropWhile isSpaceChar).reverse.dropWhile isSpaceChar).reverse

/-- `strings.HasSuffix` on the character-list view. -/
def chEndsWith (s suf : List Char) : Bool :=
  List.isSuffixOf suf s

/-- `strings.TrimSuffix` on the character-list view: drop one occurrence of
the suffix when present. -/
def chTrimSuffix (s suf : List Char) : List Char :=
  if chEndsWith s suf then s.take (s.length - suf.length) else s

/-- `strings.Contains` on the character-list view. -/
def chContains : List Char → List Char → Bool
  | [], sub => List.isPrefixOf sub []
  | c :: rest, sub => List.isPrefixOf sub (c :: rest) || chContains rest sub

/-- `buildAuthBaseURL` (`auth_client.go` lines 378-416), computed on the
character-list view of Go's ASCII strings: default the base domain, trim
surrounding space, pass full `http(s)://` URLs through (after stripping one
trailing `/` and one trailing `/api`), otherwise choose the scheme from
`secure`, append `.{baseDomain}` unless the input already carries the
domain, and finally strip `/` and `/api` the same way before appending
`/api/auth`. -/
def buildAuthBaseURL (projectURL baseDomain0 : String) (secure : Bool) : String :=
  let baseDomain := if baseDomain0 = "" then "wowmysql.com".data else baseDomain0.data
  let normalized := chTrimSpace projectURL.data
  if List.isPrefixOf "http://".data normalized
      || List.isPrefixOf "https://".data normalized then
    let n1 := chTrimSuffix normalized "/".data
    let n2 := if chEndsWith n1 "/api".data then chTrimSuffix n1 "/api".data else n1
    String.mk (n2 ++ "/api/auth".data)
  else
    let protocol := if secure then "https".data else "http".data
    let n1 :=
      if chContains normalized ('.' :: baseDomain) || chEndsWith normalized baseDomain then
        protocol ++ "://".data ++ normalized
      else
        protocol ++ "://".data ++ normalized ++ '.' :: baseDomain
    let n2 := chTrimSuffix n1 "/".data
    let n3 := if chEndsWith n2 "/api".data then chTrimSuffix n2 "/api".data else n2
    String.mk (n3 ++ "/api/auth".data)

theorem hasKey_append (a b : List (String × JsonValue)) (k : String) :
    hasKey (a ++ b) k = (hasKey a k || hasKey b k) := by
  simp [hasKey, List.any_append]

/-- C1: the body serialized by `buildQueryBody` (used by the terminal
`Execute`/`Get` calls) contains each of the keys `columns`, `filters`,
`order_by`, `order_direction`, `limit`, `offset` exactly when the
corresponding builder state is non-default; in particular a builder with no
filters, no order and unset limit/offset serializes none of those keys. -/
theorem buildQueryBody_omits_default_keys (qb : QueryBuilder) :
    (hasKey qb.buildQueryBody "columns" = !qb.columns.isEmpty)
    ∧ (hasKey qb.buildQueryBody "filters" = !qb.filters.isEmpty)
    ∧ (hasKey qb.buildQueryBody "order_by" = !(qb.orderColumn == ""))
    ∧ (hasKey qb.buildQueryBody "order_direction" = !(qb.orderColumn == ""))
    ∧ (hasKey qb.buildQueryBody "limit" = qb.limitValue.isSome)
    ∧ (hasKey qb.buildQueryBody "offset" = qb.offsetValue.isSome)
    ∧ (qb.filters = [] → qb.orderColumn = "" → qb.limitValue = none →
        qb.offsetValue = none →
        hasKey qb.buildQueryBody "filters" = false
        ∧ hasKey qb.buildQueryBody "order_by" = false
        ∧ hasKey qb.buildQueryBody "order_direction" = false
        ∧ hasKey qb.buildQueryBody "limit" = false
        ∧ hasKey qb.buildQueryBody "offset" = false) := by
  have base : ∀ k : String,
      hasKey qb.buildQueryBody k =
        ((hasKey (if 0 < qb.columns.length then
            [("columns", JsonValue.arr (qb.columns.map JsonValue.str))] else []) k
        || hasKey (if 0 < qb.filters.length then
            [("filters", JsonValue.arr (qb.filters.map FilterExpression.toJson))] else []) k)
        || (hasKey (if qb.orderColumn ≠ "" then
            [("order_by", JsonValue.str qb.orderColumn),
             ("order_direction", JsonValue.str qb.orderDirection)] else []) k
        || (hasKey (match qb.limitValue with
              | some n => [("limit", JsonValue.num (n : Rat))]
              | none => []) k
        || hasKey (match qb.offsetValue with
              | some n => [("offset", JsonValue.num (n : Rat))]
              | none => []) k))) := by
    intro k
    simp [QueryBuilder.buildQueryBody, hasKey_append, Bool.or_assoc]
  refine ⟨?_, ?_, ?_, ?_, ?_, ?_, ?_⟩
  · rw [base]
    rcases qb.columns with _ | ⟨c, cs⟩ <;>
      rcases hl : qb.limitValue with _ | n <;>
      rcases ho : qb.offsetValue with _ | m <;>
      by_cases horder : qb.orderColumn = "" <;>
      simp [hasKey, horder]
  · rw [base]
    rcases qb.filters with _ | ⟨f, fs⟩ <;>
      rcases hl : qb.limitValue with _ | n <;>
      rcases ho : qb.offsetValue with _ | m <;>
      by_cases horder : qb.orderColumn = "" <;>
      simp [hasKey, horder]
  · rw [base]
    rcases hl : qb.limitValue with _ | n <;>
      rcases ho : qb.offsetValue with _ | m <;>
      by_cases horder : qb.orderColumn = "" <;>
      simp [hasKey, horder]
  · rw [base]
    rcases hl : qb.limitValue with _ | n <;>
      rcases ho : qb.offsetValue with _ | m <;>
      by_cases horder : qb.orderColumn = "" <;>
      simp [hasKey, horder]
  · rw [base]
    rcases hl : qb.limitValue with _ | n <;>
      rcases ho : qb.offsetValue with _ | m <;>
      by_cases horder : qb.orderColumn = "" <;>
      simp [hasKey, horder]
  · rw [base]
    rcases hl : qb.limitValue with _ | n <;>
      rcases ho : qb.offsetValue with _ | m <;>
      by_cases horder : qb.orderColumn = "" <;>
      simp [hasKey, horder]
  · intro hf horder hl ho
    refine ⟨?_, ?_, ?_, ?_, ?_⟩ <;>
      · rw [base]
        simp [hasKey, hf, horder, hl, ho]

/-- C1 witness: the fresh builder `Table.Where` serializes a body without any
of the optional keys. -/
theorem buildQueryBody_omits_default_keys_witness :
    hasKey (Table.Where "users").buildQueryBody "filters" = false
    ∧ hasKey (Table.Where "users").buildQueryBody "order_by" = false
    ∧ hasKey (Table.Where "users").buildQueryBody "order_direction" = false
    ∧ hasKey (Table.Where "users").buildQueryBody "limit" = false
    ∧ hasKey (Table.Where "users").buildQueryBody "offset" = false :=
  (buildQueryBody_omits_default_keys (Table.Where "users")).2.2.2.2.2.2
    rfl rfl rfl rfl

theorem applyFilterCall_filters (qb : QueryBuilder) (call : FilterCall) :
    (applyFilterCall qb call).filters = qb.filters ++ [filterOfCall call] := by
  cases call <;>
    rfl

theorem applyFilterCalls_filters (qb : QueryBuilder) (calls : List FilterCall) :
    (applyFilterCalls qb calls).filters = qb.filters ++ calls.map filterOfCall := by
  induction calls generalizing qb with
  | nil => simp [applyFilterCalls]
  | cons call rest ih =>
      have step : applyFilterCalls qb (call :: rest)
          = applyFilterCalls (applyFilterCall qb call) rest := rfl
      rw [step, ih, applyFilterCall_filters]
      simp

theorem toJson_filterOfCall (call : FilterCall) :
    (filterOfCall call).toJson = expectedFilterJson call := by
  cases call <;>
    rfl

/-- C2: a chain of filter-mutator calls is cumulative (each call appends one
`FilterExpression`), the serialized filter list preserves call order, and
each serialized entry records the call's column, the operator of the mutator
used and the value passed; e.g. `Eq "age" 30` serializes as
`{column: age, operator: eq, value: 30}`. -/
theorem filter_chain_cumulative_and_ordered (qb : QueryBuilder) (calls : List FilterCall) :
    ((applyFilterCalls qb calls).filters.map FilterExpression.toJson
      = qb.filters.map FilterExpression.toJson ++ calls.map expectedFilterJson)
    ∧ expectedFilterJson (FilterCall.eqCall "age" (some (JsonValue.num 30)))
      = JsonValue.obj [("column", JsonValue.str "age"), ("operator", JsonValue.str "eq"),
          ("value", JsonValue.num 30)] := by
  constructor
  · rw [applyFilterCalls_filters]
    simp only [List.map_append, List.map_map]
    congr 1
    exact List.map_congr_left fun call _ => toJson_filterOfCall call
  · rfl

/-- C3 counterexample: `IsNull "deleted_at"` appends a filter whose operator
is the string `is`, which is not the `is-null` member the claim names and is
outside the claimed operator set. -/
theorem isNull_operator_outside_claimed_set :
    (((Table.Where "users").IsNull "deleted_at").filters.map fun f => f.Operator) = ["is"]
    ∧ specClaimedOperators.contains "is" = false
    ∧ "is" ≠ "is-null" := by
  refine ⟨rfl, by decide, by decide⟩

/-- C3 (amended): every filter appended by a mutator carries an operator from
the fixed source set {eq, neq, gt, gte, lt, lte, like, is}; `IsNull` appends
the `is` member with a nil value, and its serialized form contains no
`value` key. -/
theorem mutator_operator_in_source_set (call : FilterCall) (qb : QueryBuilder) (c : String) :
    sourceOperators.contains (filterOfCall call).Operator = true
    ∧ (applyFilterCall qb call).filters = qb.filters ++ [filterOfCall call]
    ∧ (qb.IsNull c).filters
      = qb.filters ++ [{ Column := c, Operator := "is", Value := none }]
    ∧ objHasKey (filterOfCall (FilterCall.isNullCall c)).toJson "value" = false := by
  refine ⟨?_, applyFilterCall_filters qb call, rfl, rfl⟩
  cases call <;> rfl

/-- C10 counterexample: no public filter-mutator call that yields the
`like` operator serializes without a `value` key — `Like` takes a
non-nullable `string` pattern, so the value is always present; the claimed
reachability of value-dropping for every value-carrying operator fails. -/
theorem like_never_drops_value_key :
    ¬ ∃ call : FilterCall,
        (filterOfCall call).Operator = OpLike
        ∧ objHasKey (filterOfCall call).toJson "value" = false := by
  rintro ⟨call, hop, hval⟩
  cases call <;>
    simp [filterOfCall, OpEq, OpNeq, OpGt, OpGte, OpLt, OpLte, OpLike, OpIsNull,
      FilterExpression.toJson, objHasKey, hasKey] at hop hval

/-- C10 (amended): for each mutator whose value parameter is a Go
`interface{}` (Eq, Neq, Gt, Gte, Lt, Lte), calling it with a nil value
appends a filter that serializes with no `value` key at all, so its key
shape on the wire coincides with the value-less `IsNull` filter; `Like`
takes a non-nullable string pattern and always serializes a `value` key. -/
theorem nil_value_mutators_drop_value_key (qb : QueryBuilder) (c p : String) :
    ((qb.Eq c none).filters.map fun f => objHasKey f.toJson "value")
      = (qb.filters.map fun f => objHasKey f.toJson "value") ++ [false]
    ∧ objHasKey (filterOfCall (FilterCall.eqCall c none)).toJson "value" = false
    ∧ objHasKey (filterOfCall (FilterCall.neqCall c none)).toJson "value" = false
    ∧ objHasKey (filterOfCall (FilterCall.gtCall c none)).toJson "value" = false
    ∧ objHasKey (filterOfCall (FilterCall.gteCall c none)).toJson "value" = false
    ∧ objHasKey (filterOfCall (FilterCall.ltCall c none)).toJson "value" = false
    ∧ objHasKey (filterOfCall (FilterCall.lteCall c none)).toJson "value" = false
    ∧ objKeys (filterOfCall (FilterCall.eqCall c none)).toJson
      = objKeys (filterOfCall (FilterCall.isNullCall c)).toJson
    ∧ objHasKey (filterOfCall (FilterCall.likeCall c p)).toJson "value" = true := by
  refine ⟨?_, rfl, rfl, rfl, rfl, rfl, rfl, rfl, rfl⟩
  simp [QueryBuilder.Eq, FilterExpression.toJson, objHasKey, hasKey]

/-- C4: `First` sets the builder's limit to 1 before executing; on success it
returns the first row; on an empty result set it returns the no-rows signal
(`ok none`, the Go `(nil, nil)`), not an error of any kind; an execute error
is propagated unchanged. -/
theorem first_limit_one_and_no_rows_signal {ε : Type}
    (exec : QueryBuilder → Except ε QueryResponse) (qb : QueryBuilder) :
    ((qb.Limit 1).limitValue = some 1)
    ∧ (∀ e, exec (qb.Limit 1) = Except.error e →
        QueryBuilder.First exec qb = Except.error e)
    ∧ (∀ r, exec (qb.Limit 1) = Except.ok r → r.Data = [] →
        QueryBuilder.First exec qb = Except.ok none)
    ∧ (∀ r d rest, exec (qb.Limit 1) = Except.ok r → r.Data = d :: rest →
        QueryBuilder.First exec qb = Except.ok (some d)) := by
  refine ⟨rfl, ?_, ?_, ?_⟩
  · intro e h
    simp [QueryBuilder.First, h]
  · intro r h hd
    simp [QueryBuilder.First, h, hd]
  · intro r d rest h hd
    simp [QueryBuilder.First, h, hd]

/-- C4 witness: a zero-row response makes `First` return the no-rows signal
on a concrete builder. -/
theorem first_no_rows_witness :
    QueryBuilder.First (fun _ => (Except.ok { Data := [] } : Except String QueryResponse))
      (Table.Where "users") = Except.ok none :=
  (first_limit_one_and_no_rows_signal
      (fun _ => (Except.ok { Data := [] } : Except String QueryResponse))
      (Table.Where "users")).2.2.1 { Data := [] } rfl rfl

theorem parseError_message_eq (statusCode : Nat) (resp : List (String × JsonValue)) :
    (parseError statusCode resp).message = extractMessage statusCode resp := by
  by_cases h1 : statusCode = 401 ∨ statusCode = 403 <;>
    by_cases h2 : statusCode = 404 <;>
    by_cases h3 : statusCode = 429 <;>
    simp [parseError, h1, h2, h3, DataError.message]

/-- C5 counterexample: a body whose `error` field is literally the sentinel
string `Request failed` does not have its message taken from that field —
the code replaces it by the synthesized status message, contradicting the
claimed selection rule. -/
theorem parseError_sentinel_collision :
    lookupString [("error", JsonValue.str "Request failed")] "error"
      = some "Request failed"
    ∧ specMessageRule 500 [("error", JsonValue.str "Request failed")] = "Request failed"
    ∧ (parseError 500 [("error", JsonValue.str "Request failed")]).message
      = "Request failed with status 500"
    ∧ ("Request failed with status 500" : String) ≠ "Request failed" := by
  refine ⟨rfl, rfl, ?_, by decide⟩
  rw [parseError_message_eq]
  rfl

/-- C5 (amended): `parseError` returns an authentication error exactly for
statuses 401 and 403, a not-found error exactly for 404, a rate-limit error
exactly for 429 and the generic error otherwise; the message is taken from
the `error`, `message`, `detail` string fields in that order, except that an
extracted message equal to the sentinel `Request failed` is replaced — as
when no field is present — by the synthesized status message. -/
theorem parseError_classification (statusCode : Nat) (resp : List (String × JsonValue)) :
    ((parseError statusCode resp).isAuthentication = true
      ↔ (statusCode = 401 ∨ statusCode = 403))
    ∧ ((parseError statusCode resp).isNotFound = true ↔ statusCode = 404)
    ∧ ((parseError statusCode resp).isRateLimit = true ↔ statusCode = 429)
    ∧ ((parseError statusCode resp).isGeneric = true
      ↔ ¬(statusCode = 401 ∨ statusCode = 403 ∨ statusCode = 404 ∨ statusCode = 429))
    ∧ (∀ m, lookupString resp "error" = some m → m ≠ "Request failed" →
        (parseError statusCode resp).message = m)
    ∧ (∀ m, lookupString resp "error" = none → lookupString resp "message" = some m →
        m ≠ "Request failed" → (parseError statusCode resp).message = m)
    ∧ (∀ m, lookupString resp "error" = none → lookupString resp "message" = none →
        lookupString resp "detail" = some m → m ≠ "Request failed" →
        (parseError statusCode resp).message = m)
    ∧ (lookupString resp "error" = none → lookupString resp "message" = none →
        lookupString resp "detail" = none →
        (parseError statusCode resp).message
          = "Request failed with status " ++ toString statusCode)
    ∧ (lookupString resp "error" = some "Request failed" →
        (parseError statusCode resp).message
          = "Request failed with status " ++ toString statusCode)
    ∧ (parseError statusCode resp).status = statusCode
    ∧ (parseError statusCode resp).response = resp := by
  have hkinds :
      ((parseError statusCode resp).isAuthentication = true
        ↔ (statusCode = 401 ∨ statusCode = 403))
      ∧ ((parseError statusCode resp).isNotFound = true ↔ statusCode = 404)
      ∧ ((parseError statusCode resp).isRateLimit = true ↔ statusCode = 429)
      ∧ ((parseError statusCode resp).isGeneric = true
        ↔ ¬(statusCode = 401 ∨ statusCode = 403 ∨ statusCode = 404 ∨ statusCode = 429))
      ∧ (parseError statusCode resp).status = statusCode
      ∧ (parseError statusCode resp).response = resp := by
    by_cases h1 : statusCode = 401 ∨ statusCode = 403 <;>
      by_cases h2 : statusCode = 404 <;>
      by_cases h3 : statusCode = 429 <;>
      simp_all [parseError, DataError.isAuthentication, DataError.isNotFound,
        DataError.isRateLimit, DataError.isGeneric, DataError.status, DataError.response]
  refine ⟨hkinds.1, hkinds.2.1, hkinds.2.2.1, hkinds.2.2.2.1, ?_, ?_, ?_, ?_, ?_,
    hkinds.2.2.2.2.1, hkinds.2.2.2.2.2⟩
  · intro m hm hne
    rw [parseError_message_eq]
    simp [extractMessage, hm, hne]
  · intro m he hm hne
    rw [parseError_message_eq]
    simp [extractMessage, he, hm, hne]
  · intro m he hm hd hne
    rw [parseError_message_eq]
    simp [extractMessage, he, hm, hd, hne]
  · intro he hm hd
    rw [parseError_message_eq]
    simp [extractMessage, he, hm, hd]
  · intro hm
    rw [parseError_message_eq]
    simp [extractMessage, hm]

/-- C5 witness: status 404 with a `message` field is classified as
not-found and keeps that field's message. -/
theorem parseError_classification_witness :
    (parseError 404 [("message", JsonValue.str "nope")]).isNotFound = true
    ∧ (parseError 404 [("message", JsonValue.str "nope")]).message = "nope" := by
  have h := parseError_classification 404 [("message", JsonValue.str "nope")]
  exact ⟨h.2.1.mpr rfl, h.2.2.2.2.2.1 "nope" rfl rfl (by decide)⟩

/-- C8: for every wire record, the derived byte fields of the constructed
`StorageQuota` equal the corresponding GB field multiplied by 2^30 and
truncated to an integer; a record with quota 10 GB, used 2.5 GB and
available 7.5 GB derives `StorageAvailableBytes` 8053063680, which is
exactly (10 - 2.5) × 2^30.  Reads of the byte fields are projections of the
values stored at construction; nothing is recomputed later. -/
theorem storageQuota_bytes_derived_once (w : StorageQuotaWire) :
    ((StorageQuota.unmarshal w).StorageQuotaBytes
      = ratTrunc (w.storage_quota_gb * 2 ^ 30))
    ∧ ((StorageQuota.unmarshal w).StorageUsedBytes
      = ratTrunc (w.storage_used_gb * 2 ^ 30))
    ∧ ((StorageQuota.unmarshal w).StorageAvailableBytes
      = ratTrunc (w.storage_available_gb * 2 ^ 30))
    ∧ (StorageQuota.unmarshal exampleQuotaWire).StorageAvailableBytes = 8053063680
    ∧ ((10 - 2.5 : Rat) * 2 ^ 30 = (8053063680 : Rat)) := by
  have hpow : ((1024 * 1024 * 1024 : Rat)) = 2 ^ 30 := by norm_num
  have harg : ((7.5 : Rat) * (1024 * 1024 * 1024)) = ((8053063680 : Int) : Rat) := by
    norm_num
  refine ⟨?_, ?_, ?_, ?_, by norm_num⟩
  · show ratTrunc (w.storage_quota_gb * (1024 * 1024 * 1024)) = _
    rw [hpow]
  · show ratTrunc (w.storage_used_gb * (1024 * 1024 * 1024)) = _
    rw [hpow]
  · show ratTrunc (w.storage_available_gb * (1024 * 1024 * 1024)) = _
    rw [hpow]
  · show ratTrunc ((7.5 : Rat) * (1024 * 1024 * 1024)) = _
    rw [harg, ratTrunc]
    norm_num

/-- C6 counterexample: a backend 413 on the upload POST of a 5-byte payload
yields a `StorageLimitExceededError` whose `RequiredBytes` is the int64
zero value, not the payload length 5. -/
theorem upload_413_requiredBytes_not_payload :
    StorageClient.Upload (NewStorageClient "https://p" "k") [1, 2, 3, 4, 5] "f.txt" ""
        (some false) (Except.ok {}) (413, [])
      = Except.error
          (StorageFailure.limitExceeded "Request failed with status 413" 0 0 413 [])
    ∧ ((0 : Int) ≠ (([1, 2, 3, 4, 5] : List Nat).length : Int)) := by
  refine ⟨rfl, by decide⟩

/-- C6 (amended): whenever the quota guard lets the request through and the
backend answers the upload with a non-2xx status, `Upload` returns
`parseStorageError` of that response; for status 413 that is a
`StorageLimitExceededError` whose `RequiredBytes` and `AvailableBytes` are
left at zero (the payload length is not recorded), and for every other
non-2xx status it is the generic `StorageError`. -/
theorem upload_server_error_classification (s : StorageClient) (fileData : List Nat)
    (key contentType : String) (checkQuota : Option Bool)
    (quotaOutcome : Except StorageFailure StorageQuota)
    (status : Nat) (body : List (String × JsonValue))
    (hgate : uploadQuotaGate s checkQuota quotaOutcome fileData = UploadGate.send)
    (hfail : status < 200 ∨ 300 ≤ status) :
    (StorageClient.Upload s fileData key contentType checkQuota quotaOutcome (status, body)
      = Except.error (parseStorageError status body))
    ∧ (status = 413 →
        parseStorageError status body
          = StorageFailure.limitExceeded (extractMessage status body) 0 0 status body)
    ∧ (status ≠ 413 →
        parseStorageError status body
          = StorageFailure.storageError (extractMessage status body) status body) := by
  refine ⟨?_, ?_, ?_⟩
  · simp [StorageClient.Upload, hgate, hfail]
  · intro h
    simp [parseStorageError, h]
  · intro h
    simp [parseStorageError, h]

/-- C6 witness: a 500 on the upload POST is a generic storage error. -/
theorem upload_server_error_witness :
    StorageClient.Upload (NewStorageClient "https://p" "k") [] "f" "" (some false)
        (Except.ok {}) (500, [])
      = Except.error
          (StorageFailure.storageError "Request failed with status 500" 500 []) := by
  have h := upload_server_error_classification (NewStorageClient "https://p" "k") [] "f" ""
    (some false) (Except.ok {}) 500 [] rfl (Or.inr (by decide))
  rw [h.1, h.2.2 (by decide)]
  rfl

/-- C7: with quota checking resolved to enabled (the `NewStorageClient`
default, overridable per call) and the fetched quota's available bytes
strictly below the payload length, the quota guard aborts with a
`StorageLimitExceededError` carrying required = payload length and
available = the fetched count, never reaches the `send` state, and `Upload`
returns that error for every conceivable transport response — the upload
POST is never built or sent. -/
theorem upload_quota_guard_fails_fast (s : StorageClient) (checkQuota : Option Bool)
    (q : StorageQuota) (fileData : List Nat) (key contentType pURL aKey : String)
    (hcheck : shouldCheckQuota s checkQuota = true)
    (hinsufficient : q.StorageAvailableBytes < (fileData.length : Int)) :
    (uploadQuotaGate s checkQuota (Except.ok q) fileData
      = UploadGate.abort (StorageFailure.limitExceeded
          (storageLimitExceededMessage (fileData.length : Int) q.StorageAvailableBytes)
          (fileData.length : Int) q.StorageAvailableBytes 0 []))
    ∧ (uploadQuotaGate s checkQuota (Except.ok q) fileData ≠ UploadGate.send)
    ∧ (∀ response,
        StorageClient.Upload s fileData key contentType checkQuota (Except.ok q) response
          = Except.error (StorageFailure.limitExceeded
              (storageLimitExceededMessage (fileData.length : Int) q.StorageAvailableBytes)
              (fileData.length : Int) q.StorageAvailableBytes 0 []))
    ∧ shouldCheckQuota (NewStorageClient pURL aKey) none = true := by
  have hgate : uploadQuotaGate s checkQuota (Except.ok q) fileData
      = UploadGate.abort (StorageFailure.limitExceeded
          (storageLimitExceededMessage (fileData.length : Int) q.StorageAvailableBytes)
          (fileData.length : Int) q.StorageAvailableBytes 0 []) := by
    simp [uploadQuotaGate, hcheck, hinsufficient]
  refine ⟨hgate, ?_, ?_, rfl⟩
  · rw [hgate]
    intro hcontra
    exact UploadGate.noConfusion hcontra
  · intro response
    simp [StorageClient.Upload, hgate]

/-- C7 witness: 3 available bytes against a 5-byte payload fail fast with
the exact byte counts, and `Upload` never reaches the transport. -/
theorem upload_quota_guard_witness :
    (uploadQuotaGate (NewStorageClient "https://p" "k") none (Except.ok witnessQuota)
        [7, 7, 7, 7, 7]
      = UploadGate.abort (StorageFailure.limitExceeded
          (storageLimitExceededMessage 5 3) 5 3 0 []))
    ∧ storageLimitExceededMessage 5 3
      = "Storage limit exceeded. Need 5 B, but only 3 B available." := by
  have h := upload_quota_guard_fails_fast (NewStorageClient "https://p" "k") none
    witnessQuota [7, 7, 7, 7, 7] "f" "" "https://p" "k" rfl (by decide)
  exact ⟨h.1, rfl⟩

/-- C9: the bare slug `myproj` with the default (empty, hence defaulted)
base domain and a secure scheme derives
`https://myproj.wowmysql.com/api/auth`, and the full URL
`https://myproj.wowmysql.com/api/` — whatever the `secure` flag, which the
full-URL branch ignores — normalizes its trailing slash and `/api` suffix
away to the very same base URL. -/
theorem buildAuthBaseURL_slug_and_full_url (secure : Bool) :
    buildAuthBaseURL "myproj" "" true = "https://myproj.wowmysql.com/api/auth"
    ∧ buildAuthBaseURL "https://myproj.wowmysql.com/api/" "" secure
      = "https://myproj.wowmysql.com/api/auth" := by
  constructor
  · decide
  · cases secure <;> decide

/-- C9 witness: the two derivations at the concrete secure flag. -/
theorem buildAuthBaseURL_witness :
    buildAuthBaseURL "myproj" "" true = "https://myproj.wowmysql.com/api/auth"
    ∧ buildAuthBaseURL "https://myproj.wowmysql.com/api/" "" true
      = "https://myproj.wowmysql.com/api/auth" :=
  buildAuthBaseURL_slug_and_full_url true
